import Mathlib

/-!
Verification of the host-compatibility configuration header `acrust.h` of the
acpica-sys repository.  The header is a declarative, compile-time artifact: a
sequence of preprocessor directives, some of them conditional on build feature
flags.  We embed it as a list of directives parameterised by the build
configuration, with structured macro bodies for the parts the properties talk
about (stub-generating function macros, primitive type bindings, the
severity/message table, the debug-verbosity bitmask), and prove the stated
properties of the resulting macro environment.
-/

/-- The build feature flags consumed by `acrust.h`: `CONFIG_ACPI`,
`CONFIG_ACPI_REDUCED_HARDWARE_ONLY`, `CONFIG_ACPI_DEBUGGER`, `CONFIG_ACPI_DEBUG`. -/
structure BuildConfig where
  acpi : Bool
  reducedHardwareOnly : Bool
  debugger : Bool
  debug : Bool
deriving DecidableEq

/-- The five stub-generating macro families of lines 94-103 of `acrust.h`. -/
inductive StubShape
  | returnStatus
  | returnOk
  | returnVoid
  | returnUint32
  | returnPtr
deriving DecidableEq

/-- The closed set of sentinel results named by the specification. -/
inductive SentinelResult
  | NotConfigured
  | Ok
  | Void
  | ZeroU32
  | NullPointer
deriving DecidableEq

/-- C types appearing in the header. -/
inductive CType
  | structType (s : String)
  | namedType (s : String)
  | ptr (t : CType)
deriving DecidableEq

/-- C expressions appearing in the header. -/
inductive CExpr
  | aeNotConfigured
  | aeOk
  | intLit (n : Nat)
  | nullPtr
  | ident (s : String)
  | bitOr (a b : CExpr)
  | call1 (f : String) (a : CExpr)
  | call2 (f : String) (a b : CExpr)
  | castTo (t : CType) (e : CExpr)
  | desigInit (f v : CExpr)
deriving DecidableEq

/-- C statements: a return, plus the effectful statement forms the
frame conditions rule out (calls, assignment, lock acquisition, allocation,
blocking). -/
inductive CStmt
  | ret (e : Option CExpr)
  | exprStmt (e : CExpr)
  | assign (lhs : String) (rhs : CExpr)
  | acquireLock (l : CExpr)
  | allocate (sz : CExpr)
  | blockUntil (c : CExpr)
deriving DecidableEq

/-- An expression is pure when it performs no function call. -/
def CExpr.isPure : CExpr → Bool
  | .call1 _ _ => false
  | .call2 _ _ _ => false
  | .bitOr a b => a.isPure && b.isPure
  | .castTo _ e => e.isPure
  | .desigInit f v => f.isPure && v.isPure
  | _ => true

/-- A statement is effect-free when it is a return of a pure expression
(or a bare return). -/
def CStmt.isEffectFree : CStmt → Bool
  | .ret none => true
  | .ret (some e) => e.isPure
  | _ => false

/-- A C function prototype: return type, external name, parameter types. -/
structure Prototype where
  retType : CType
  name : String
  params : List CType
deriving DecidableEq

/-- A C function definition as produced by the stub-generating macros:
storage class, inline qualifier, the prototype, and the body statements. -/
structure CFunctionDef where
  isStatic : Bool
  isInline : Bool
  proto : Prototype
  body : List CStmt
deriving DecidableEq

/-- The return expression in each stub family body (lines 94-103 of `acrust.h`):
`AE_NOT_CONFIGURED`, `AE_OK`, bare `return`, `0`, `NULL`. -/
def stubReturn : StubShape → Option CExpr
  | .returnStatus => some .aeNotConfigured
  | .returnOk => some .aeOk
  | .returnVoid => none
  | .returnUint32 => some (.intLit 0)
  | .returnPtr => some .nullPtr

/-- Expansion of a stub-generating macro applied to a prototype, as written at
lines 94-103 of `acrust.h`: `static ACPI_INLINE Prototype { return (X); }`.
The supplied prototype is reused verbatim and the body is a single return. -/
def stubExpansion (m : StubShape) (p : Prototype) : CFunctionDef :=
  ⟨true, true, p, [CStmt.ret (stubReturn m)]⟩

/-- Classify a stub body by the sentinel it returns: a single return of
`AE_NOT_CONFIGURED`, `AE_OK`, nothing, `0`, or `NULL`; anything else is not a
recognised sentinel shape. -/
def classifyStubReturn : List CStmt → Option SentinelResult
  | [CStmt.ret (some CExpr.aeNotConfigured)] => some .NotConfigured
  | [CStmt.ret (some CExpr.aeOk)] => some .Ok
  | [CStmt.ret none] => some .Void
  | [CStmt.ret (some (CExpr.intLit 0))] => some .ZeroU32
  | [CStmt.ret (some CExpr.nullPtr)] => some .NullPointer
  | _ => none

/-- The sentinel assignment the specification states for each stub family. -/
def shapeSentinel : StubShape → SentinelResult
  | .returnStatus => .NotConfigured
  | .returnOk => .Ok
  | .returnVoid => .Void
  | .returnUint32 => .ZeroU32
  | .returnPtr => .NullPointer

/-- Enumeration of the stub families. -/
def stubShapes : List StubShape :=
  [.returnStatus, .returnOk, .returnVoid, .returnUint32, .returnPtr]

/-- The host log levels used by the message macros (`KERN_ERR`,
`KERN_WARNING`, `KERN_INFO`). -/
inductive KernLevel
  | kernErr
  | kernWarning
  | kernInfo
deriving DecidableEq

/-- The body of a macro definition in the header, structured by kind:
empty object-like macros, object-like macros expanding to an expression or a
type, the message macros (level token followed by a literal text), empty
function-like macros, function-like macros expanding to an expression or a
statement, and the five stub-generating macros. -/
inductive MacroDef
  | objEmpty
  | objExpr (e : CExpr)
  | objType (t : CType)
  | objMsg (level : KernLevel) (text : String)
  | fnEmpty (params : List String)
  | fnExpr (params : List String) (e : CExpr)
  | fnStmt (params : List String) (s : CStmt)
  | fnStub (shape : StubShape)
deriving DecidableEq

/-- A preprocessor directive of the header. -/
inductive Directive
  | define (n : String) (b : MacroDef)
  | undef (n : String)
deriving DecidableEq

/-- The macro name a directive concerns. -/
def Directive.name : Directive → String
  | .define n _ => n
  | .undef n => n

/-- Whether a directive is a definition. -/
def Directive.isDefine : Directive → Bool
  | .define _ _ => true
  | .undef _ => false

/-- The three comment groups of the alternate-prototype block of `acrust.h`:
lines 123-125 (overrides for in-kernel ACPICA), lines 135-137 (OSL interfaces
used by debugger/disassembler), lines 143-145 (OSL interfaces used by
utilities). -/
inductive AltGroup
  | inKernelOverride
  | debuggerDisassembler
  | utility
deriving DecidableEq

/-- The alternate-prototype entry points of lines 126-152 of `acrust.h`, each
tagged with the comment group it appears under in the source. -/
def altPrototypeEntries : List (String × AltGroup) :=
  [("AcpiOsInitialize", .inKernelOverride),
   ("AcpiOsTerminate", .inKernelOverride),
   ("AcpiOsAllocate", .inKernelOverride),
   ("AcpiOsAllocateZeroed", .inKernelOverride),
   ("AcpiOsFree", .inKernelOverride),
   ("AcpiOsAcquireObject", .inKernelOverride),
   ("AcpiOsGetThreadId", .inKernelOverride),
   ("AcpiOsCreateLock", .inKernelOverride),
   ("AcpiOsReadable", .debuggerDisassembler),
   ("AcpiOsWritable", .debuggerDisassembler),
   ("AcpiOsInitializeDebugger", .debuggerDisassembler),
   ("AcpiOsTerminateDebugger", .debuggerDisassembler),
   ("AcpiOsRedirectOutput", .utility),
   ("AcpiOsGetTableByName", .utility),
   ("AcpiOsGetTableByIndex", .utility),
   ("AcpiOsGetTableByAddress", .utility),
   ("AcpiOsOpenDirectory", .utility),
   ("AcpiOsGetNextFilename", .utility),
   ("AcpiOsCloseDirectory", .utility)]

/-- The directive sequence of `acrust.h` (lines 49-165), in source order, as a
function of the build configuration.  Conditional blocks (`#ifdef
CONFIG_ACPI_REDUCED_HARDWARE_ONLY`, `#ifdef CONFIG_ACPI_DEBUGGER`, `#ifdef
CONFIG_ACPI_DEBUG`, `#ifndef CONFIG_ACPI`) contribute their directives exactly
when the corresponding flag has the required value. -/
def acrustDirectives (cfg : BuildConfig) : List Directive :=
  [Directive.define "ACPI_USE_DO_WHILE_0" .objEmpty,
   Directive.define "ACPI_IGNORE_PACKAGE_RESOLUTION_ERRORS" .objEmpty,
   Directive.define "ACPI_USE_SYSTEM_INTTYPES" .objEmpty,
   Directive.define "ACPI_USE_GPE_POLLING" .objEmpty]
  ++ (if cfg.reducedHardwareOnly then
        [Directive.define "ACPI_REDUCED_HARDWARE" (.objExpr (.intLit 1))]
      else [])
  ++ (if cfg.debugger then [Directive.define "ACPI_DEBUGGER" .objEmpty] else [])
  ++ (if cfg.debug then [Directive.define "ACPI_MUTEX_DEBUG" .objEmpty] else [])
  ++ [Directive.define "ACPI_INIT_FUNCTION" (.objExpr (.ident "__init")),
      Directive.undef "ACPI_DEBUG_DEFAULT",
      Directive.define "ACPI_DEBUG_DEFAULT"
        (.objExpr (.bitOr (.ident "ACPI_LV_INFO") (.ident "ACPI_LV_REPAIR")))]
  ++ (if cfg.acpi then []
      else
        [Directive.define "ACPI_GLOBAL" (.fnEmpty ["t", "a"]),
         Directive.define "ACPI_INIT_GLOBAL" (.fnEmpty ["t", "a", "b"]),
         Directive.define "ACPI_NO_MEM_ALLOCATIONS" .objEmpty,
         Directive.define "ACPI_NO_ERROR_MESSAGES" .objEmpty,
         Directive.undef "ACPI_DEBUG_OUTPUT",
         Directive.define "ACPI_EXTERNAL_RETURN_STATUS" (.fnStub .returnStatus),
         Directive.define "ACPI_EXTERNAL_RETURN_OK" (.fnStub .returnOk),
         Directive.define "ACPI_EXTERNAL_RETURN_VOID" (.fnStub .returnVoid),
         Directive.define "ACPI_EXTERNAL_RETURN_UINT32" (.fnStub .returnUint32),
         Directive.define "ACPI_EXTERNAL_RETURN_PTR" (.fnStub .returnPtr)])
  ++ [Directive.define "ACPI_MACHINE_WIDTH" (.objExpr (.ident "BITS_PER_LONG")),
      Directive.define "ACPI_USE_NATIVE_MATH64" .objEmpty,
      Directive.define "ACPI_EXPORT_SYMBOL"
        (.fnStmt ["symbol"] (.exprStmt (.call1 "EXPORT_SYMBOL" (.ident "symbol")))),
      Directive.define "strtoul" (.objExpr (.ident "simple_strtoul")),
      Directive.define "ACPI_CACHE_T" (.objType (.structType "kmem_cache")),
      Directive.define "ACPI_SPINLOCK" (.objType (.ptr (.namedType "spinlock_t"))),
      Directive.define "ACPI_CPU_FLAGS" (.objType (.namedType "unsigned long")),
      Directive.define "ACPI_UINTPTR_T" (.objType (.namedType "uintptr_t")),
      Directive.define "ACPI_TO_INTEGER"
        (.fnExpr ["p"] (.castTo (.namedType "uintptr_t") (.ident "p"))),
      Directive.define "ACPI_OFFSET"
        (.fnExpr ["d", "f"] (.call2 "offsetof" (.ident "d") (.ident "f")))]
  ++ altPrototypeEntries.map
       (fun p => Directive.define (String.append "ACPI_USE_ALTERNATE_PROTOTYPE_" p.1) .objEmpty)
  ++ [Directive.define "ACPI_MSG_ERROR" (.objMsg .kernErr ""),
      Directive.define "ACPI_MSG_EXCEPTION" (.objMsg .kernErr "@FATAL"),
      Directive.define "ACPI_MSG_WARNING" (.objMsg .kernWarning ""),
      Directive.define "ACPI_MSG_INFO" (.objMsg .kernInfo ""),
      Directive.define "ACPI_MSG_BIOS_ERROR" (.objMsg .kernErr "ACPI BIOS Error (bug): "),
      Directive.define "ACPI_MSG_BIOS_WARNING" (.objMsg .kernWarning "ACPI BIOS Warning (bug): "),
      Directive.define "ACPI_STRUCT_INIT"
        (.fnExpr ["field", "value"] (.desigInit (.ident "field") (.ident "value")))]

/-- The last directive of the sequence concerning a macro name, if any. -/
def lastTouch (ds : List Directive) (n : String) : Option Directive :=
  ds.foldl (fun acc d => if d.name == n then some d else acc) none

/-- The macro environment after processing the directive sequence on top of an
initial environment: the last define wins, a last undef removes the macro, and
an untouched name keeps its initial value. -/
def resolveIn (env0 : String → Option MacroDef) (ds : List Directive) (n : String) :
    Option MacroDef :=
  match lastTouch ds n with
  | some (Directive.define _ b) => some b
  | some (Directive.undef _) => none
  | none => env0 n

/-- The macro body a name is defined as after `acrust.h` is processed against
an empty initial environment. -/
def definedAs (cfg : BuildConfig) (n : String) : Option MacroDef :=
  resolveIn (fun _ => none) (acrustDirectives cfg) n

/-- Whether a name is defined after `acrust.h` is processed. -/
def isDefinedAfter (cfg : BuildConfig) (n : String) : Bool :=
  (definedAs cfg n).isSome

/-- How many define directives of the sequence concern a macro name. -/
def defineCount (ds : List Directive) (n : String) : Nat :=
  (ds.filter fun d => d.isDefine && d.name == n).length

/-- The stub-generating macro name of each stub family. -/
def stubMacroName : StubShape → String
  | .returnStatus => "ACPI_EXTERNAL_RETURN_STATUS"
  | .returnOk => "ACPI_EXTERNAL_RETURN_OK"
  | .returnVoid => "ACPI_EXTERNAL_RETURN_VOID"
  | .returnUint32 => "ACPI_EXTERNAL_RETURN_UINT32"
  | .returnPtr => "ACPI_EXTERNAL_RETURN_PTR"

/-- A subsystem-gated entry point of the required-host-services contract: its
prototype and the stub family its declaration macro belongs to. -/
structure EntryPoint where
  proto : Prototype
  shape : StubShape
deriving DecidableEq

/-- Modelled from the spec: representative entry points of the required
host-services contract, one per stub family.  The full list is owned by the
portable library (its `acpixf.h`), which is not part of this repository; the
specification names only the shape families and the example
"initialize subsystem". -/
def requiredSubsystemEntries : List EntryPoint :=
  [⟨⟨.namedType "ACPI_STATUS", "AcpiInitializeSubsystem", [.namedType "void"]⟩, .returnStatus⟩,
   ⟨⟨.namedType "ACPI_STATUS", "AcpiPurgeCachedObjects", [.namedType "void"]⟩, .returnOk⟩,
   ⟨⟨.namedType "void", "AcpiSubsystemRelease", [.ptr (.namedType "void")]⟩, .returnVoid⟩,
   ⟨⟨.namedType "UINT32", "AcpiSubsystemCount", [.namedType "void"]⟩, .returnUint32⟩,
   ⟨⟨.ptr (.namedType "void"), "AcpiSubsystemHandle", [.namedType "void"]⟩, .returnPtr⟩]

/-- The provenance of a binding installed for an entry point. -/
inductive BindingSource
  | hostStub (shape : StubShape)
  | libraryDefault
  | hostAlternate
deriving DecidableEq

/-- Modelled from the spec: resolution of a subsystem-gated entry point.  The
host layer contributes the generated stub exactly when the corresponding
stub-generating macro is defined by `acrust.h`; otherwise the portable library
(not part of this repository) contributes its single default binding to the
real implementation.  Each binding is installed under the external name of the
entry point. -/
def subsystemBindings (cfg : BuildConfig) (e : EntryPoint) : List (String × BindingSource) :=
  (if isDefinedAfter cfg (stubMacroName e.shape) then
    [(e.proto.name, BindingSource.hostStub e.shape)]
   else [])
  ++ (if isDefinedAfter cfg (stubMacroName e.shape) then []
      else [(e.proto.name, BindingSource.libraryDefault)])

/-- Modelled from the spec: resolution of an alternate-prototype entry point.
The host supplies its own implementation exactly when the corresponding
`ACPI_USE_ALTERNATE_PROTOTYPE_` macro is defined by `acrust.h`; otherwise the
portable library (not part of this repository) contributes its single default
binding. -/
def alternateBindings (cfg : BuildConfig) (n : String) : List (String × BindingSource) :=
  (if isDefinedAfter cfg (String.append "ACPI_USE_ALTERNATE_PROTOTYPE_" n) then
    [(n, BindingSource.hostAlternate)]
   else [])
  ++ (if isDefinedAfter cfg (String.append "ACPI_USE_ALTERNATE_PROTOTYPE_" n) then []
      else [(n, BindingSource.libraryDefault)])

/-- The implementation installed for an entry point: its prototype and whether
it came from the generated stub. -/
structure Installed where
  proto : Prototype
  viaStub : Bool
deriving DecidableEq

/-- Modelled from the spec: when the feature flag is enabled the stub macros
are left undefined and the portable library (not part of this repository)
binds the host delegate under the identical prototype, with no wrapping. -/
def delegateInstall (p : Prototype) : Prototype := p

/-- The implementation installed for a subsystem-gated entry point: the stub
expansion of its prototype when its stub macro is defined, the delegate
otherwise. -/
def installEntry (cfg : BuildConfig) (e : EntryPoint) : Installed :=
  if isDefinedAfter cfg (stubMacroName e.shape) then
    ⟨(stubExpansion e.shape e.proto).proto, true⟩
  else
    ⟨delegateInstall e.proto, false⟩

/-- The six message classes of the severity/message mapping. -/
inductive MessageClass
  | error
  | exception
  | warning
  | info
  | biosError
  | biosWarning
deriving DecidableEq

/-- Enumeration of the six message classes. -/
def msgClasses : List MessageClass :=
  [.error, .exception, .warning, .info, .biosError, .biosWarning]

/-- The message macro name of each class (lines 154-160 of `acrust.h`). -/
def msgMacroName : MessageClass → String
  | .error => "ACPI_MSG_ERROR"
  | .exception => "ACPI_MSG_EXCEPTION"
  | .warning => "ACPI_MSG_WARNING"
  | .info => "ACPI_MSG_INFO"
  | .biosError => "ACPI_MSG_BIOS_ERROR"
  | .biosWarning => "ACPI_MSG_BIOS_WARNING"

/-- The host log level the mapping is expected to assign to each class. -/
def specMsgLevel : MessageClass → KernLevel
  | .error => .kernErr
  | .exception => .kernErr
  | .warning => .kernWarning
  | .info => .kernInfo
  | .biosError => .kernErr
  | .biosWarning => .kernWarning

/-- The literal text the mapping is expected to assign to each class. -/
def specMsgText : MessageClass → String
  | .error => ""
  | .exception => "@FATAL"
  | .warning => ""
  | .info => ""
  | .biosError => "ACPI BIOS Error (bug): "
  | .biosWarning => "ACPI BIOS Warning (bug): "

/-- C2: when the subsystem feature flag is disabled, each stubbed entry point
returns a sentinel drawn from exactly the closed five-element set
NotConfigured, Ok, Void, ZeroU32, NullPointer: the five stub-generating macro
shapes produce bodies returning AE_NOT_CONFIGURED, AE_OK, a bare void return,
0, and NULL respectively, and no other sentinel shape exists. -/
theorem c2_sentinel_set :
    (∀ (m : StubShape) (p : Prototype),
      classifyStubReturn ((stubExpansion m p).body) = some (shapeSentinel m))
    ∧ shapeSentinel .returnStatus = .NotConfigured
    ∧ shapeSentinel .returnOk = .Ok
    ∧ shapeSentinel .returnVoid = .Void
    ∧ shapeSentinel .returnUint32 = .ZeroU32
    ∧ shapeSentinel .returnPtr = .NullPointer
    ∧ (∀ s : SentinelResult, ∃ m : StubShape, shapeSentinel m = s)
    ∧ (∀ m : StubShape, m ∈ stubShapes)
    ∧ stubShapes.length = 5 := by
  refine ⟨?_, rfl, rfl, rfl, rfl, rfl, ?_, ?_, rfl⟩
  · intro m p
    cases m <;> rfl
  · intro s
    cases s
    exacts [⟨.returnStatus, rfl⟩, ⟨.returnOk, rfl⟩, ⟨.returnVoid, rfl⟩,
      ⟨.returnUint32, rfl⟩, ⟨.returnPtr, rfl⟩]
  · intro m
    cases m <;> simp [stubShapes]

/-- C3: a stub expanded for a disabled subsystem consists of exactly one
statement, a return of the sentinel expression of its family; in particular
the body is effect-free, with no call, assignment, lock acquisition,
allocation, or blocking statement. -/
theorem c3_stub_single_return :
    ∀ (m : StubShape) (p : Prototype),
      (stubExpansion m p).body = [CStmt.ret (stubReturn m)]
      ∧ (stubExpansion m p).body.length = 1
      ∧ ((stubExpansion m p).body.all CStmt.isEffectFree) = true := by
  intro m p
  exact ⟨rfl, rfl, by cases m <;> rfl⟩

/-- C8: for every entry point the installed signature is identical whether the
entry resolves to stub mode or delegate mode: the stub-generating macros reuse
the supplied prototype verbatim, and the installed prototype equals the entry
prototype under every build configuration. -/
theorem c8_signature_invariant :
    (∀ (m : StubShape) (p : Prototype), (stubExpansion m p).proto = p)
    ∧ (∀ (cfg : BuildConfig) (e : EntryPoint), (installEntry cfg e).proto = e.proto)
    ∧ (∀ (cfg cfg2 : BuildConfig) (e : EntryPoint),
        (installEntry cfg e).proto = (installEntry cfg2 e).proto) := by
  have hbase : ∀ (cfg : BuildConfig) (e : EntryPoint), (installEntry cfg e).proto = e.proto := by
    intro cfg e
    unfold installEntry
    split <;> rfl
  exact ⟨fun m p => rfl, hbase, fun cfg cfg2 e => (hbase cfg e).trans (hbase cfg2 e).symm⟩

/-- C5: each of the five abstract primitive names resolves, in every build
configuration, to exactly one concrete host type: the cache object to
struct kmem_cache, the spinlock handle to a pointer to spinlock_t, the
CPU-flags word to unsigned long, the pointer-sized unsigned integer to
uintptr_t, and the machine width to BITS_PER_LONG; each binding is defined by
exactly one directive of the header. -/
theorem c5_primitive_bindings :
    ∀ cfg : BuildConfig,
      definedAs cfg "ACPI_CACHE_T" = some (.objType (.structType "kmem_cache"))
      ∧ definedAs cfg "ACPI_SPINLOCK" = some (.objType (.ptr (.namedType "spinlock_t")))
      ∧ definedAs cfg "ACPI_CPU_FLAGS" = some (.objType (.namedType "unsigned long"))
      ∧ definedAs cfg "ACPI_UINTPTR_T" = some (.objType (.namedType "uintptr_t"))
      ∧ definedAs cfg "ACPI_MACHINE_WIDTH" = some (.objExpr (.ident "BITS_PER_LONG"))
      ∧ defineCount (acrustDirectives cfg) "ACPI_CACHE_T" = 1
      ∧ defineCount (acrustDirectives cfg) "ACPI_SPINLOCK" = 1
      ∧ defineCount (acrustDirectives cfg) "ACPI_CPU_FLAGS" = 1
      ∧ defineCount (acrustDirectives cfg) "ACPI_UINTPTR_T" = 1
      ∧ defineCount (acrustDirectives cfg) "ACPI_MACHINE_WIDTH" = 1 := by
  intro cfg
  obtain ⟨a, r, g, d⟩ := cfg
  cases a <;> cases r <;> cases g <;> cases d <;>
    exact ⟨rfl, rfl, rfl, rfl, rfl, rfl, rfl, rfl, rfl, rfl⟩

/-- C6: the severity/message mapping is total over exactly the six message
classes, each class is defined by exactly one directive with no fallback, the
six macro names are pairwise distinct, BiosError maps to the error level with
text "ACPI BIOS Error (bug): ", and Info maps to the info level with empty
text; this holds in every build configuration. -/
theorem c6_msg_mapping :
    ∀ cfg : BuildConfig,
      ((msgClasses.all fun c =>
          definedAs cfg (msgMacroName c)
            == some (MacroDef.objMsg (specMsgLevel c) (specMsgText c))) = true)
      ∧ specMsgLevel .biosError = .kernErr
      ∧ specMsgText .biosError = "ACPI BIOS Error (bug): "
      ∧ specMsgLevel .info = .kernInfo
      ∧ specMsgText .info = ""
      ∧ ((msgClasses.all fun c =>
          defineCount (acrustDirectives cfg) (msgMacroName c) == 1) = true)
      ∧ (∀ c : MessageClass, c ∈ msgClasses)
      ∧ msgClasses.length = 6
      ∧ (msgClasses.map msgMacroName).Nodup := by
  intro cfg
  obtain ⟨a, r, g, d⟩ := cfg
  cases a <;> cases r <;> cases g <;> cases d <;>
    exact ⟨rfl, rfl, rfl, rfl, rfl, rfl,
      fun c => by cases c <;> simp [msgClasses], rfl, by decide⟩

/-- C7: for every initial macro environment and every build configuration,
after the header is processed the diagnostic-verbosity default
ACPI_DEBUG_DEFAULT is defined as the bitmask ACPI_LV_INFO | ACPI_LV_REPAIR,
and the header defines that name exactly once (after first removing any
inherited definition), so the value is set once and never changed afterward. -/
theorem c7_debug_default :
    ∀ (env0 : String → Option MacroDef) (cfg : BuildConfig),
      resolveIn env0 (acrustDirectives cfg) "ACPI_DEBUG_DEFAULT"
        = some (.objExpr (.bitOr (.ident "ACPI_LV_INFO") (.ident "ACPI_LV_REPAIR")))
      ∧ defineCount (acrustDirectives cfg) "ACPI_DEBUG_DEFAULT" = 1 := by
  intro env0 cfg
  obtain ⟨a, r, g, d⟩ := cfg
  cases a <;> cases r <;> cases g <;> cases d <;> exact ⟨rfl, rfl⟩

/-- C9: the configuration flag that suppresses table/package resolution
errors, ACPI_IGNORE_PACKAGE_RESOLUTION_ERRORS, is defined unconditionally in
every build configuration, independent of every feature flag. -/
theorem c9_ignore_package_resolution :
    ∀ cfg : BuildConfig,
      definedAs cfg "ACPI_IGNORE_PACKAGE_RESOLUTION_ERRORS" = some .objEmpty
      ∧ defineCount (acrustDirectives cfg) "ACPI_IGNORE_PACKAGE_RESOLUTION_ERRORS" = 1 := by
  intro cfg
  obtain ⟨a, r, g, d⟩ := cfg
  cases a <;> cases r <;> cases g <;> cases d <;> exact ⟨rfl, rfl⟩

/-- C10: when the subsystem feature flag is disabled the layer also defines
ACPI_GLOBAL and ACPI_INIT_GLOBAL as function-like macros with empty expansion,
defines ACPI_NO_MEM_ALLOCATIONS and ACPI_NO_ERROR_MESSAGES, and undefines
ACPI_DEBUG_OUTPUT; when the flag is enabled, none of these five names is
touched by any directive of the header. -/
theorem c10_flag_disabled_configuration :
    ∀ cfg : BuildConfig,
      (cfg.acpi = false →
        definedAs cfg "ACPI_GLOBAL" = some (.fnEmpty ["t", "a"])
        ∧ definedAs cfg "ACPI_INIT_GLOBAL" = some (.fnEmpty ["t", "a", "b"])
        ∧ definedAs cfg "ACPI_NO_MEM_ALLOCATIONS" = some .objEmpty
        ∧ definedAs cfg "ACPI_NO_ERROR_MESSAGES" = some .objEmpty
        ∧ lastTouch (acrustDirectives cfg) "ACPI_DEBUG_OUTPUT"
            = some ( Directive.undef "ACPI_DEBUG_OUTPUT"))
      ∧ (cfg.acpi = true →
        ((["ACPI_GLOBAL", "ACPI_INIT_GLOBAL", "ACPI_NO_MEM_ALLOCATIONS",
           "ACPI_NO_ERROR_MESSAGES", "ACPI_DEBUG_OUTPUT"].all fun n =>
             lastTouch (acrustDirectives cfg) n == none) = true)) := by
  intro cfg
  obtain ⟨a, r, g, d⟩ := cfg
  cases a <;> cases r <;> cases g <;> cases d <;>
    first
      | exact ⟨fun _ => ⟨rfl, rfl, rfl, rfl, rfl⟩, fun h => Bool.noConfusion h⟩
      | exact ⟨fun h => Bool.noConfusion h, fun _ => rfl⟩

/-- Witness for C10 at the two concrete feature-flag states: with the flag
disabled the five configuration points are set as stated, and with the flag
enabled none of the five names is touched. -/
theorem c10_flag_disabled_configuration_witness :
    (definedAs ⟨false, false, false, false⟩ "ACPI_GLOBAL" = some (.fnEmpty ["t", "a"])
      ∧ definedAs ⟨false, false, false, false⟩ "ACPI_INIT_GLOBAL"
          = some (.fnEmpty ["t", "a", "b"])
      ∧ definedAs ⟨false, false, false, false⟩ "ACPI_NO_MEM_ALLOCATIONS" = some .objEmpty
      ∧ definedAs ⟨false, false, false, false⟩ "ACPI_NO_ERROR_MESSAGES" = some .objEmpty
      ∧ lastTouch (acrustDirectives ⟨false, false, false, false⟩) "ACPI_DEBUG_OUTPUT"
          = some ( Directive.undef "ACPI_DEBUG_OUTPUT"))
    ∧ ((["ACPI_GLOBAL", "ACPI_INIT_GLOBAL", "ACPI_NO_MEM_ALLOCATIONS",
         "ACPI_NO_ERROR_MESSAGES", "ACPI_DEBUG_OUTPUT"].all fun n =>
           lastTouch (acrustDirectives ⟨true, false, false, false⟩) n == none) = true) :=
  ⟨(c10_flag_disabled_configuration ⟨false, false, false, false⟩).1 rfl,
   (c10_flag_disabled_configuration ⟨true, false, false, false⟩).2 rfl⟩

/-- C1: for every entry point of the required-host-services list and for both
states of the subsystem feature flag (and every other feature flag), resolution
yields exactly one binding, installed under the external name of the entry
point: never zero bindings and never two, both for the subsystem-gated entries
and for the alternate-prototype entries. -/
theorem c1_exactly_one_binding :
    ∀ cfg : BuildConfig,
      ((requiredSubsystemEntries.all fun e =>
          ((subsystemBindings cfg e).length == 1)
            && ((subsystemBindings cfg e).all fun b => b.1 == e.proto.name)) = true)
      ∧ ((altPrototypeEntries.all fun p =>
          ((alternateBindings cfg p.1).length == 1)
            && ((alternateBindings cfg p.1).all fun b => b.1 == p.1)) = true) := by
  intro cfg
  obtain ⟨a, r, g, d⟩ := cfg
  cases a <;> cases r <;> cases g <;> cases d <;> exact ⟨rfl, rfl⟩

/-- C4 fails as stated: the alternate-prototype selection axis does not cover
only debugger/disassembler and utility entry points; AcpiOsAllocate is in the
alternate-prototype list under the in-kernel-override group of the source. -/
theorem c4_counterexample :
    ((altPrototypeEntries.all fun p =>
        p.2 == AltGroup.debuggerDisassembler || p.2 == AltGroup.utility) = false)
    ∧ ("AcpiOsAllocate", AltGroup.inKernelOverride) ∈ altPrototypeEntries := by
  exact ⟨rfl, by decide⟩

/-- C4 amended: the alternate-prototype selection axis covers the in-kernel
core overrides (lifecycle, memory, object-cache, thread-id and lock-creation
entry points) in addition to the debugger/disassembler and utility subsets,
and for every entry point in the list the alternate-prototype selection is
taken unconditionally, independent of every feature flag. -/
theorem c4_alternate_axis :
    ∀ cfg : BuildConfig,
      ((altPrototypeEntries.all fun p =>
          isDefinedAfter cfg (String.append "ACPI_USE_ALTERNATE_PROTOTYPE_" p.1)) = true)
      ∧ (∃ p ∈ altPrototypeEntries, p.2 = AltGroup.inKernelOverride)
      ∧ (∃ p ∈ altPrototypeEntries, p.2 = AltGroup.debuggerDisassembler)
      ∧ (∃ p ∈ altPrototypeEntries, p.2 = AltGroup.utility) := by
  intro cfg
  obtain ⟨a, r, g, d⟩ := cfg
  cases a <;> cases r <;> cases g <;> cases d <;>
    exact ⟨rfl, ⟨("AcpiOsInitialize", .inKernelOverride), by decide, rfl⟩,
      ⟨("AcpiOsReadable", .debuggerDisassembler), by decide, rfl⟩,
      ⟨("AcpiOsRedirectOutput", .utility), by decide, rfl⟩⟩
